import Mathlib

/-!
Verification development for the RentSeekerBot repository: a shallow
embedding of the bot's filter model (internal/bot/search.go), the dynamic
query construction of the database layer (internal/database/database.go),
the conversation state machine (the bot handlers file), and the
preference-store plumbing, together with theorems settling the spec's
claims about them.

Go maps are modelled as association lists (iteration order = list order;
the source's map iteration order is unspecified, and no settled claim
depends on it beyond what is stated). Go `int` is modelled as `Int`
(the inputs relevant to the claims are far from the 64-bit bounds).
Strings are modelled with Lean `String`; the Go standard-library string
primitives used by the source (`strings.Split` with a one-character
separator, `strings.TrimSpace`, `strconv.Atoi`) are re-implemented below
by structural recursion on the character list so that proofs can evaluate
them.
-/

namespace RentSeeker

/-! ## Go string primitives -/

/-- Character-level splitter: `splitCharList sep cs` is `strings.Split`
on a one-character separator, at the level of character lists. The result
is always non-empty, and splitting the empty list yields `[[]]`, matching
`strings.Split("", "-") = [""]`. -/
def splitCharList (sep : Char) : List Char → List (List Char)
  | [] => [[]]
  | c :: rest =>
    match splitCharList sep rest with
    | h :: t => if c = sep then [] :: h :: t else (c :: h) :: t
    | [] => [[]]

/-- Go `strings.Split(s, sep)` for a one-character separator. -/
def goSplit (s : String) (sep : Char) : List String :=
  (splitCharList sep s.data).map (fun l => String.mk l)

/-- Whitespace as trimmed by Go `strings.TrimSpace` (the ASCII portion:
space and the control characters 9-13; the non-ASCII Unicode spaces do
not occur in any input relevant to the claims). -/
def isGoSpace (c : Char) : Bool :=
  c.toNat = 32 || (9 ≤ c.toNat && c.toNat ≤ 13)

/-- Go `strings.TrimSpace`. -/
def goTrimSpace (s : String) : String :=
  String.mk (((s.data.dropWhile isGoSpace).reverse.dropWhile isGoSpace).reverse)

/-- Decimal digit value of a character, if it is one. -/
def digitVal (c : Char) : Option Nat :=
  if '0' ≤ c ∧ c ≤ '9' then some (c.toNat - '0'.toNat) else none

/-- Accumulate a run of decimal digits; fails on the first non-digit. -/
def parseDigitsAux : List Char → Nat → Option Nat
  | [], acc => some acc
  | c :: cs, acc =>
    match digitVal c with
    | some d => parseDigitsAux cs (acc * 10 + d)
    | none => none

/-- Go `strconv.Atoi`: optional sign followed by at least one decimal
digit. (Go additionally errors on values outside the 64-bit range; the
claims only involve small values, so the model is unbounded.) -/
def atoi? (s : String) : Option Int :=
  match s.data with
  | [] => none
  | '+' :: rest =>
    if rest = [] then none else (parseDigitsAux rest 0).map Int.ofNat
  | '-' :: rest =>
    if rest = [] then none else (parseDigitsAux rest 0).map (fun n => -(Int.ofNat n))
  | cs => (parseDigitsAux cs 0).map Int.ofNat

/-- SQLite `LOWER`: ASCII lower-casing (SQLite's built-in `LOWER` only
folds ASCII letters). -/
def asciiLowerChar (c : Char) : Char :=
  if 'A' ≤ c ∧ c ≤ 'Z' then Char.ofNat (c.toNat + 32) else c

/-- SQLite `LOWER` on a whole string. -/
def sqliteLower (s : String) : String :=
  String.mk (s.data.map asciiLowerChar)

/-! ## Association lists: the model of Go maps and of the
`map[string]interface{}` filter map -/

/-- First-match lookup in an association list (a Go map read, minus the
zero-value defaulting, which is added where the source relies on it). -/
def alGet {α : Type} : List (String × α) → String → Option α
  | [], _ => none
  | (k', v) :: rest, k => if k' = k then some v else alGet rest k

/-- Map assignment `m[k] = v`: replace the binding if the key is present,
append it otherwise. -/
def alSet {α : Type} : List (String × α) → String → α → List (String × α)
  | [], k, v => [(k, v)]
  | (k', v') :: rest, k, v =>
    if k' = k then (k, v) :: rest else (k', v') :: alSet rest k v

/-- Go `delete(m, k)`: remove every binding of the key. -/
def alDel {α : Type} : List (String × α) → String → List (String × α)
  | [], _ => []
  | (k', v') :: rest, k =>
    if k' = k then alDel rest k else (k', v') :: alDel rest k

@[simp] theorem alGet_nil {α : Type} (k : String) : alGet ([] : List (String × α)) k = none := rfl

@[simp] theorem alGet_alSet {α : Type} (l : List (String × α)) (k k' : String) (v : α) :
    alGet (alSet l k' v) k = if k' = k then some v else alGet l k := by
  induction l with
  | nil => simp [alSet, alGet]
  | cons p rest ih =>
    obtain ⟨pk, pv⟩ := p
    by_cases h1 : pk = k'
    · subst h1
      by_cases h2 : pk = k <;> simp [alSet, alGet, h2]
    · by_cases h2 : pk = k
      · subst h2
        simp only [alSet, if_neg h1, alGet, if_pos rfl]
        have : ¬ k' = pk := fun h => h1 h.symm
        simp [this]
      · simp [alSet, alGet, h1, h2, ih]

@[simp] theorem alGet_alDel {α : Type} (l : List (String × α)) (k k' : String) :
    alGet (alDel l k') k = if k' = k then none else alGet l k := by
  induction l with
  | nil => simp [alDel, alGet]
  | cons p rest ih =>
    obtain ⟨pk, pv⟩ := p
    by_cases h1 : pk = k'
    · subst h1
      by_cases h2 : pk = k
      · subst h2 ; simp [alDel, alGet, ih]
      · simp [alDel, alGet, h2, ih]
    · by_cases h2 : pk = k
      · subst h2
        have : ¬ k' = pk := fun h => h1 h.symm
        simp [alDel, alGet, h1, this]
      · simp [alDel, alGet, h1, h2, ih]

/-- Multi-select option map (Go `map[string]bool`). -/
abbrev OptionsMap := List (String × Bool)

/-- Read of a Go `map[string]bool` (missing keys read as `false`). -/
def mget (options : OptionsMap) (k : String) : Bool :=
  (alGet options k).getD false

/-! ## Filter model (internal/bot/search.go) -/

/-- Values stored in the dynamic `map[string]interface{}` filter map; one
constructor per concrete type the source stores and type-asserts. -/
inductive FilterValue : Type
  | strs : List String → FilterValue
  | ints : List Int → FilterValue
  | int : Int → FilterValue
  | bool : Bool → FilterValue
  | str : String → FilterValue
deriving DecidableEq, Repr

/-- The `map[string]interface{}` built by `buildFilters`. -/
abbrev Filters := List (String × FilterValue)

/-- The user's search criteria (struct `SearchPreferences`). -/
structure SearchPreferences : Type where
  PropertyTypes : OptionsMap
  BedroomOptions : OptionsMap
  FurnishedOptions : OptionsMap
  PriceRange : String
  Location : String
deriving DecidableEq, Repr

/-- Source `getSelectedOptions`: the labels mapped to `true`. -/
def getSelectedOptions (options : OptionsMap) : List String :=
  (options.filter (fun p => p.2)).map (fun p => p.1)

/-- Source `getSelectedBedroomOptions`: selected labels to integers,
"Studio" to 0, non-numeric labels silently dropped. -/
def getSelectedBedroomOptions (options : OptionsMap) : List Int :=
  options.foldl
    (fun acc p =>
      if p.2 then
        if p.1 = "Studio" then acc ++ [(0 : Int)]
        else
          match atoi? p.1 with
          | some num => acc ++ [num]
          | none => acc
      else acc)
    []

/-- Source `parsePriceRange`: split on `-`; a side that fails
`strconv.Atoi` takes its default (0 for min, 1000000 for max); swap when
min > max. -/
def parsePriceRange (priceRange : String) : Int × Int :=
  match goSplit priceRange '-' with
  | [a, b] =>
    let mn := (atoi? (goTrimSpace a)).getD 0
    let mx := (atoi? (goTrimSpace b)).getD 1000000
    if mn > mx then (mx, mn) else (mn, mx)
  | _ => (0, 1000000)

/-- Source `buildFilters`: the dynamic filter map derived from a
`SearchPreferences` value. -/
def buildFilters (preferences : SearchPreferences) : Filters :=
  let filters : Filters := []
  let types := getSelectedOptions preferences.PropertyTypes
  let filters := if types.length > 0 then alSet filters "types" (FilterValue.strs types) else filters
  let bedrooms := getSelectedBedroomOptions preferences.BedroomOptions
  let filters := if bedrooms.length > 0 then alSet filters "bedrooms" (FilterValue.ints bedrooms) else filters
  let filters :=
    if preferences.PriceRange ≠ "" then
      let mm := parsePriceRange preferences.PriceRange
      let filters := if mm.1 > 0 then alSet filters "min_price" (FilterValue.int mm.1) else filters
      let filters := if mm.2 > 0 then alSet filters "max_price" (FilterValue.int mm.2) else filters
      filters
    else filters
  let furnishedOptions := getSelectedOptions preferences.FurnishedOptions
  let filters :=
    if furnishedOptions.length > 0 then
      if furnishedOptions.length = 1 then
        alSet filters "furnished" (FilterValue.bool (furnishedOptions.getD 0 "" == "Furnished"))
      else filters
    else filters
  alSet filters "location" (FilterValue.str "Bath")

/-! ## Listing model and the dynamic query of
internal/database/database.go `GetProperties` -/

/-- A rental property record (struct `Property`; the Go field `Type` is
rendered `ptype` because `Type` is a Lean keyword). -/
structure Property : Type where
  id : Int
  ptype : String
  pricePerMonth : Int
  bedrooms : Int
  furnished : Bool
  location : String
  description : String
  photoURLs : List String
  webLink : String
deriving DecidableEq, Repr

/-- The `types` conjunct of the query: added only when the filter value
is a `[]string` type-assertion success with positive length, as
`(LOWER(type) = LOWER(?) OR ...)`. -/
def typesPass (filters : Filters) (p : Property) : Bool :=
  match alGet filters "types" with
  | some (FilterValue.strs v) =>
    if v.length > 0 then v.any (fun t => sqliteLower p.ptype == sqliteLower t) else true
  | _ => true

/-- The `min_price` conjunct: `price_per_month >= ?`. -/
def minPricePass (filters : Filters) (p : Property) : Bool :=
  match alGet filters "min_price" with
  | some (FilterValue.int v) => decide (v ≤ p.pricePerMonth)
  | _ => true

/-- The `max_price` conjunct: `price_per_month <= ?`. -/
def maxPricePass (filters : Filters) (p : Property) : Bool :=
  match alGet filters "max_price" with
  | some (FilterValue.int v) => decide (p.pricePerMonth ≤ v)
  | _ => true

/-- The `bedrooms` conjunct: `bedrooms IN (...)`. -/
def bedroomsPass (filters : Filters) (p : Property) : Bool :=
  match alGet filters "bedrooms" with
  | some (FilterValue.ints v) =>
    if v.length > 0 then v.contains p.bedrooms else true
  | _ => true

/-- The `location` conjunct: `LOWER(location) = LOWER(?)` —
case-insensitive equality. -/
def locationPass (filters : Filters) (p : Property) : Bool :=
  match alGet filters "location" with
  | some (FilterValue.str v) => sqliteLower p.location == sqliteLower v
  | _ => true

/-- The `furnished` conjunct: `furnished = ?`. -/
def furnishedPass (filters : Filters) (p : Property) : Bool :=
  match alGet filters "furnished" with
  | some (FilterValue.bool v) => p.furnished == v
  | _ => true

/-- A row matches the dynamic `WHERE` clause built by `GetProperties`
(all present filter conjuncts ANDed). -/
def matchesFilters (filters : Filters) (p : Property) : Bool :=
  typesPass filters p && minPricePass filters p && maxPricePass filters p &&
    bedroomsPass filters p && locationPass filters p && furnishedPass filters p

/-- `GetProperties` on a concrete table of rows: the rows satisfying the
dynamic query (row order = table order). -/
def GetProperties (db : List Property) (filters : Filters) : List Property :=
  db.filter (fun p => matchesFilters filters p)

/-- A database connection as `searchProperties` sees it: a query that
either returns rows or fails with a storage error (`db.Query` can fail;
`GetProperties` wraps the failure). -/
abbrev QueryFun := Filters → Except String (List Property)

/-- An error-free connection backed by a concrete table. -/
def dbQuery (db : List Property) : QueryFun :=
  fun filters => Except.ok (GetProperties db filters)

/-! ## The relaxation search (internal/bot/search.go `searchProperties`) -/

/-- The fixed relaxation order of `searchProperties`. -/
def relaxationSteps : List String := ["bedrooms", "types", "price", "furnished"]

/-- The `for _, step := range relaxationSteps` loop of
`searchProperties`: delete the step's key, re-query, return on error,
break on a non-empty result; when the steps are exhausted the last
(empty) result is returned. Alongside the result it records the filter
map passed to each issued query. -/
def relaxLoop (q : QueryFun) :
    List String → Filters → List Property → Except String (List Property) × List Filters
  | [], _, properties => (Except.ok properties, [])
  | step :: rest, filters, _ =>
    let filters := alDel filters step
    match q filters with
    | Except.error e =>
      (Except.error ("error searching properties with relaxed filters: " ++ e), [filters])
    | Except.ok properties =>
      if properties.length > 0 then (Except.ok properties, [filters])
      else
        let r := relaxLoop q rest filters properties
        (r.1, filters :: r.2)

/-- Source `searchProperties`, instrumented with the list of filter maps
passed to the storage layer (the first element is the initial query's
filters, the rest are the relaxed re-queries actually issued). -/
def searchPropertiesTraced (q : QueryFun) (preferences : SearchPreferences) :
    Except String (List Property) × List Filters :=
  let filters := buildFilters preferences
  match q filters with
  | Except.error e => (Except.error ("error searching properties: " ++ e), [filters])
  | Except.ok properties =>
    if properties.length = 0 then
      let r := relaxLoop q relaxationSteps filters properties
      (r.1, filters :: r.2)
    else (Except.ok properties, [filters])

/-- Source `searchProperties`: result only. -/
def searchProperties (q : QueryFun) (preferences : SearchPreferences) :
    Except String (List Property) :=
  (searchPropertiesTraced q preferences).1

/-! ## Conversation state machine (the bot handlers file)

The per-user `UserState` is held behind a pointer in the session map and
mutated in place; the model threads the state value explicitly and
returns it together with the list of outbound message texts sent during
the step. The user's chat and the user identifier coincide for the
private-chat dialogue the handlers implement, so a step needs no id
argument. Branches whose effect is only outbound presentation backed by
the transport or the storage layer (saved-listing buttons, summary
rendering and the search it triggers) are outside the state machine and
are represented by their state effect plus a marker message. -/

def stageAwaitingPriceRange : String := "awaiting_price_range"

def stageAwaitingLocation : String := "awaiting_location"

def stageAwaitingPropertyType : String := "awaiting_property_type"

def stageAwaitingBedrooms : String := "awaiting_bedrooms"

def stageAwaitingFurnished : String := "awaiting_furnished"

/-- Per-user dialogue state (struct `UserState`). -/
structure UserState : Type where
  Stage : String
  Preferences : SearchPreferences
deriving DecidableEq, Repr

/-- Source `NewFlexibleSearchPreferences` (all maps empty). -/
def NewFlexibleSearchPreferences : SearchPreferences :=
  { PropertyTypes := [], BedroomOptions := [], FurnishedOptions := [],
    PriceRange := "", Location := "" }

/-- The state `getUserState` creates lazily on first contact. -/
def initialUserState : UserState :=
  { Stage := "initial", Preferences := NewFlexibleSearchPreferences }

/-- Source `updateMultiSelectOption`: toggle an option
(`options[option] = !options[option]`; a missing key reads `false`). -/
def updateMultiSelectOption (options : OptionsMap) (option : String) : OptionsMap :=
  alSet options option (!(mget options option))

/-- Source `validatePriceRange`: split on `-` into exactly two parts,
both of which must parse as integers after trimming. -/
def validatePriceRange (input : String) : Bool :=
  match goSplit input '-' with
  | [a, b] => (atoi? (goTrimSpace a)).isSome && (atoi? (goTrimSpace b)).isSome
  | _ => false

/-- Source `askPropertyType`: seed the property-type map when empty, send
the prompt, move to `awaiting_property_type`. -/
def askPropertyType (st : UserState) : UserState × List String :=
  let prefs := st.Preferences
  let prefs :=
    if prefs.PropertyTypes.length = 0 then
      { prefs with PropertyTypes := alSet (alSet prefs.PropertyTypes "Flat" false) "House" false }
    else prefs
  ({ Stage := stageAwaitingPropertyType, Preferences := prefs },
   ["🏠 Select property type(s):"])

/-- Source `askBedrooms`: seed the bedroom map when empty, send the
prompt, move to `awaiting_bedrooms`. -/
def askBedrooms (st : UserState) : UserState × List String :=
  let prefs := st.Preferences
  let prefs :=
    if prefs.BedroomOptions.length = 0 then
      { prefs with BedroomOptions :=
          [("Studio", false), ("1", false), ("2", false), ("3", false), ("4", false), ("5+", false)] }
    else prefs
  ({ Stage := stageAwaitingBedrooms, Preferences := prefs },
   ["🛏 Select the number of bedrooms (you can select multiple options):"])

/-- Source `askPriceRange`: move to `awaiting_price_range` and prompt. -/
def askPriceRange (st : UserState) : UserState × List String :=
  ({ st with Stage := stageAwaitingPriceRange },
   ["💰 Let me know the price range for the monthly rent in GBP. Format: min - max (e.g., 1200 - 1800)"])

/-- Source `askFurnished`: seed the furnished map when empty, prompt,
move to `awaiting_furnished`. -/
def askFurnished (st : UserState) : UserState × List String :=
  let prefs := st.Preferences
  let prefs :=
    if prefs.FurnishedOptions.length = 0 then
      { prefs with FurnishedOptions := [("Furnished", false), ("Unfurnished", false)] }
    else prefs
  ({ Stage := stageAwaitingFurnished, Preferences := prefs },
   ["🪑 Do you want to search for furnished or unfurnished accommodation? (You can select both)"])

/-- Source `askLocation`: move to `awaiting_location` and prompt. -/
def askLocation (st : UserState) : UserState × List String :=
  ({ st with Stage := stageAwaitingLocation },
   ["📍 The bot is in testing mode, so the search area is restricted to Bath. Please confirm the location:"])

/-- Source `handleCallbackQuery`, restricted to the pure dialogue
transitions (the `use_saved_prefs`, `start_new_search`, `save`, `delete`
and `noop` branches go through storage or only acknowledge the callback,
and leave the dialogue state unchanged, which is how the default branch
here renders them). The callback data is split on `:`. -/
def handleCallbackQuery (st : UserState) (data : String) : UserState × List String :=
  let parts := goSplit data ':'
  let action := parts.getD 0 ""
  let arg := parts.getD 1 ""
  if action = "start_preferences" then askPropertyType st
  else if action = "property_type" then
    if arg = "done" then askBedrooms st
    else
      ({ st with Preferences :=
          { st.Preferences with
            PropertyTypes := updateMultiSelectOption st.Preferences.PropertyTypes arg } }, [])
  else if action = "bedrooms" then
    if arg = "done" then askPriceRange st
    else
      ({ st with Preferences :=
          { st.Preferences with
            BedroomOptions := alSet st.Preferences.BedroomOptions arg
              (!(mget st.Preferences.BedroomOptions arg)) } }, [])
  else if action = "furnished" then
    if arg = "done" then askLocation st
    else
      ({ st with Preferences :=
          { st.Preferences with
            FurnishedOptions := alSet st.Preferences.FurnishedOptions arg
              (!(mget st.Preferences.FurnishedOptions arg)) } }, [])
  else if action = "location" then
    if arg = "Bath" then
      ({ Stage := "showing_summary",
         Preferences := { st.Preferences with Location := "Bath" } }, ["showSummary"])
    else (st, [])
  else (st, [])

/-- Source `handleRegularMessage`: free-text events dispatched on the
current stage. In the `awaiting_location` branch the summary rendering
and the search it triggers are outbound presentation, marked
"showSummary". -/
def handleRegularMessage (st : UserState) (text : String) : UserState × List String :=
  if st.Stage = stageAwaitingPriceRange then
    if validatePriceRange text then
      askFurnished { st with Preferences := { st.Preferences with PriceRange := text } }
    else
      (st, ["Invalid price range format. Please use the format: min - max (e.g., 1200 - 1800)"])
  else if st.Stage = stageAwaitingLocation then
    ({ st with Preferences := { st.Preferences with Location := text } }, ["showSummary"])
  else
    (st, ["I'm sorry, I didn't understand that. Please use the provided buttons or follow the instructions."])

/-! ## Preference persistence (internal/database/database.go
`SaveUserPreferences`) and its database/sql parameter plumbing

`SaveUserPreferences` executes an `INSERT OR REPLACE` with eight
positional arguments. Before any SQL runs, Go's `database/sql` converts
every argument to a driver value with its default parameter converter,
which accepts (among others) integers, strings, byte slices, booleans and
`time.Time`, and rejects everything else — in particular Go maps — with
`sql: converting argument $N type: unsupported type ..., a map`. The
source passes `prefs.Furnished`, a `map[string]bool`, as the sixth
argument (the `furnished BOOLEAN` column), so the statement fails before
reaching the database. -/

/-- A persisted user preference record (struct `UserPreferences`; the
`time.Time` field is an abstract timestamp). -/
structure UserPreferences : Type where
  UserID : Int
  PropertyTypes : OptionsMap
  BedroomOptions : OptionsMap
  MinPrice : Int
  MaxPrice : Int
  Location : String
  Furnished : OptionsMap
  LastSearch : Int
deriving DecidableEq, Repr

/-- A Go value passed as a statement argument to `db.Exec`. -/
inductive GoArg : Type
  | i64 : Int → GoArg
  | goInt : Int → GoArg
  | str : String → GoArg
  | bytes : String → GoArg
  | boolMap : OptionsMap → GoArg
  | timeArg : Int → GoArg
deriving DecidableEq, Repr

/-- A driver-level SQL value accepted by database/sql. -/
inductive SQLValue : Type
  | int : Int → SQLValue
  | text : String → SQLValue
  | blob : String → SQLValue
  | time : Int → SQLValue
deriving DecidableEq, Repr

/-- Decimal rendering of the single-digit argument indices that occur in
the eight-argument statements modelled here. -/
def argIndexStr (n : Nat) : String :=
  match n with
  | 1 => "1" | 2 => "2" | 3 => "3" | 4 => "4" | 5 => "5"
  | 6 => "6" | 7 => "7" | 8 => "8" | 9 => "9" | _ => "0"

/-- database/sql's default parameter converter: integers, strings, byte
slices and `time.Time` are valid driver values; a Go map is not and
produces the converter's error. -/
def driverConvert (idx : Nat) (a : GoArg) : Except String SQLValue :=
  match a with
  | GoArg.i64 v => Except.ok (SQLValue.int v)
  | GoArg.goInt v => Except.ok (SQLValue.int v)
  | GoArg.str s => Except.ok (SQLValue.text s)
  | GoArg.bytes s => Except.ok (SQLValue.blob s)
  | GoArg.timeArg t => Except.ok (SQLValue.time t)
  | GoArg.boolMap _ =>
    Except.error ("sql: converting argument $" ++ argIndexStr idx ++
      " type: unsupported type map[string]bool, a map")

/-- Convert a statement's arguments in order, failing on the first
unsupported one (as `driverArgsConnLocked` does). -/
def convertArgs : Nat → List GoArg → Except String (List SQLValue)
  | _, [] => Except.ok []
  | idx, a :: rest =>
    match driverConvert idx a with
    | Except.error e => Except.error e
    | Except.ok v =>
      match convertArgs (idx + 1) rest with
      | Except.error e => Except.error e
      | Except.ok vs => Except.ok (v :: vs)

/-- Lexicographic order on strings by code point (the keys serialized
here are ASCII, where this coincides with Go's byte order). -/
def charListLe : List Char → List Char → Bool
  | [], _ => true
  | _ :: _, [] => false
  | a :: as, b :: bs =>
    if a.toNat < b.toNat then true
    else if b.toNat < a.toNat then false
    else charListLe as bs

/-- Insertion into a sorted key list, for the sorted-key JSON encoding
`json.Marshal` gives Go maps. -/
def insertSortedKey (p : String × Bool) : List (String × Bool) → List (String × Bool)
  | [] => [p]
  | q :: qs => if charListLe p.1.data q.1.data then p :: q :: qs else q :: insertSortedKey p qs

/-- Go `json.Marshal` of a `map[string]bool`: object with keys in sorted
order. It never fails. -/
def jsonEncodeBoolMap (m : OptionsMap) : String :=
  let sorted := m.foldr insertSortedKey []
  let fields := sorted.map (fun p => "\"" ++ p.1 ++ "\":" ++ (if p.2 then "true" else "false"))
  "\x7b" ++ String.intercalate "," fields ++ "\x7d"

/-- The `user_preferences` table: one driver-value row per user id. -/
abbrev PrefStore := List (Int × List SQLValue)

/-- `INSERT OR REPLACE` keyed by `user_id`. -/
def upsertRow (store : PrefStore) (uid : Int) (row : List SQLValue) : PrefStore :=
  (store.filter (fun p => p.1 ≠ uid)) ++ [(uid, row)]

/-- Source `SaveUserPreferences`: marshal the property-type and bedroom
maps to JSON, then execute the eight-argument `INSERT OR REPLACE`, whose
arguments first pass through the driver converter. `now` stands for
`time.Now()`. -/
def SaveUserPreferences (store : PrefStore) (prefs : UserPreferences) (now : Int) :
    Except String PrefStore :=
  let propertyTypesJSON := jsonEncodeBoolMap prefs.PropertyTypes
  let bedroomOptionsJSON := jsonEncodeBoolMap prefs.BedroomOptions
  let args : List GoArg :=
    [GoArg.i64 prefs.UserID, GoArg.bytes propertyTypesJSON, GoArg.goInt prefs.MinPrice,
     GoArg.goInt prefs.MaxPrice, GoArg.bytes bedroomOptionsJSON, GoArg.boolMap prefs.Furnished,
     GoArg.str prefs.Location, GoArg.timeArg now]
  match convertArgs 1 args with
  | Except.error e => Except.error e
  | Except.ok row => Except.ok (upsertRow store prefs.UserID row)

/-! ## Saved listing references -/

/-- Modelled from the spec: the repository's `SaveListing` (called
`saveListingReference` in the spec) is not under src — only its tests and
callers are. Per §4.4 and §6 of the spec it inserts a (user id, listing
id) pair into the `saved_listings` table, which has a unique constraint
on the pair, via `INSERT OR IGNORE` (the statement its tests expect), so
an already-present pair is left untouched. -/
def saveListingReference (store : List (Int × Int)) (userID listingID : Int) :
    List (Int × Int) :=
  if (userID, listingID) ∈ store then store else store ++ [(userID, listingID)]

/-- Modelled from the spec: `GetSavedListings` (`listSavedReferences`)
resolves the user's saved references; here the listing ids saved for the
user, whose count the idempotence claim is about. -/
def listSavedReferences (store : List (Int × Int)) (userID : Int) : List Int :=
  (store.filter (fun p => p.1 = userID)).map (fun p => p.2)

/-- Number of stored references to one (user, listing) pair. -/
def countPair (store : List (Int × Int)) (userID listingID : Int) : Nat :=
  (store.filter (fun p => p = (userID, listingID))).length

/-! ## Spec-side definitions, for comparison with the source -/

/-- Does `needle` occur in `hay` as a contiguous sublist? -/
def listContainsSub (needle hay : List Char) : Bool :=
  match hay with
  | [] => needle.isEmpty
  | _ :: t => needle.isPrefixOf hay || listContainsSub needle t

/-- Following the spec's words for the location constraint: "the
listing's location contains L as a substring under case-insensitive
comparison (containment match, not equality)". -/
def specLocationContains (listingLocation l : String) : Bool :=
  listContainsSub (sqliteLower l).data (sqliteLower listingLocation).data

/-- Following the claim's words for `parsePriceRange`: split on `-`, a
side that fails to parse takes its default, and the values are swapped
only "if both sides parse and min > max". -/
def specParsePriceRange (priceRange : String) : Int × Int :=
  match goSplit priceRange '-' with
  | [a, b] =>
    let mo := atoi? (goTrimSpace a)
    let mxo := atoi? (goTrimSpace b)
    let mn := mo.getD 0
    let mx := mxo.getD 1000000
    if mo.isSome && mxo.isSome && decide (mn > mx) then (mx, mn) else (mn, mx)
  | _ => (0, 1000000)

/-- The amended description of `parsePriceRange`: split on `-`; anything
but exactly two parts gives the full default range; otherwise each
failing side takes its default and the two values are swapped whenever
min > max — also when one side took its default. -/
def specParsePriceRangeAmended (priceRange : String) : Int × Int :=
  match goSplit priceRange '-' with
  | [a, b] =>
    let mn := (atoi? (goTrimSpace a)).getD 0
    let mx := (atoi? (goTrimSpace b)).getD 1000000
    if mn > mx then (mx, mn) else (mn, mx)
  | _ => (0, 1000000)

/-! ## Concrete fixtures -/

/-- A selection set with all four relaxable dimensions set: types
(Flat), bedrooms (2), price 1000-2000, furnished (only Furnished). -/
def prefsC1 : SearchPreferences :=
  { PropertyTypes := [("Flat", true)], BedroomOptions := [("2", true)],
    FurnishedOptions := [("Furnished", true), ("Unfurnished", false)],
    PriceRange := "1000-2000", Location := "Bath" }

/-- A listing in Bath matching `prefsC1` on location, type, bedrooms and
furnished, but priced outside its range. -/
def propPricey : Property :=
  { id := 1, ptype := "Flat", pricePerMonth := 2500, bedrooms := 2, furnished := true,
    location := "Bath", description := "Nice flat", photoURLs := [], webLink := "w" }

/-- A listing whose location strictly contains "Bath". -/
def propBathCentre : Property :=
  { id := 2, ptype := "Flat", pricePerMonth := 1500, bedrooms := 2, furnished := true,
    location := "Bath City Centre", description := "d", photoURLs := [], webLink := "w" }

/-- A listing whose location is "BATH" (case-insensitively equal to
"Bath"). -/
def propBATH : Property :=
  { id := 3, ptype := "Flat", pricePerMonth := 1500, bedrooms := 2, furnished := true,
    location := "BATH", description := "d", photoURLs := [], webLink := "w" }

/-- A filter map carrying only a location constraint "Bath". -/
def locOnlyFilters : Filters := [("location", FilterValue.str "Bath")]

/-- A selection set whose price-range string is the non-empty "0-1000". -/
def prefsC4 : SearchPreferences := { NewFlexibleSearchPreferences with PriceRange := "0-1000" }

/-- A fresh user whose dialogue sits at the price-range question. -/
def awaitingPriceRangeState : UserState :=
  { Stage := stageAwaitingPriceRange, Preferences := NewFlexibleSearchPreferences }

/-- A storage connection that answers an empty result while the filter
map still has a bedrooms key and fails once it is dropped. -/
def qBoom : QueryFun := fun filters =>
  match alGet filters "bedrooms" with
  | some _ => Except.ok []
  | none => Except.error "boom"

/-! ## Shared helper lemmas -/

/-- `buildFilters` always ends by setting the location key to "Bath". -/
theorem buildFilters_location (prefs : SearchPreferences) :
    alGet (buildFilters prefs) "location" = some (FilterValue.str "Bath") := by
  unfold buildFilters
  simp [alGet_alSet]

/-- Every filter map the relaxation loop passes to the storage layer
keeps the location binding it started with, as long as no step names the
location key. -/
theorem relaxLoop_location (q : QueryFun) (v : FilterValue) :
    ∀ (steps : List String) (filters : Filters) (props : List Property),
      (∀ s ∈ steps, s ≠ "location") → alGet filters "location" = some v →
      ∀ f ∈ (relaxLoop q steps filters props).2, alGet f "location" = some v := by
  intro steps
  induction steps with
  | nil => intro filters props _ _ f hf; simp [relaxLoop] at hf
  | cons step rest ih =>
    intro filters props hsteps hloc f hf
    have hstep : step ≠ "location" := hsteps step (by simp)
    have hloc' : alGet (alDel filters step) "location" = some v := by
      simp [alGet_alDel, hstep, hloc]
    simp only [relaxLoop] at hf
    cases hq : q (alDel filters step) with
    | error e =>
      rw [hq] at hf
      simp at hf
      subst hf
      exact hloc'
    | ok props' =>
      rw [hq] at hf
      by_cases hlen : props'.length > 0
      · simp [hlen] at hf
        subst hf
        exact hloc'
      · simp [hlen] at hf
        rcases hf with hf | hf
        · subst hf; exact hloc'
        · exact ih (alDel filters step) props' (fun s hs => hsteps s (by simp [hs])) hloc' f hf

/-- In the relaxation loop, every issued query except the last returned
an empty success, and an error outcome is the last issued query's error,
wrapped once and surfaced at once. -/
theorem relaxLoop_err (q : QueryFun) :
    ∀ (steps : List String) (filters : Filters) (props : List Property),
      (∀ f ∈ ((relaxLoop q steps filters props).2).dropLast, q f = Except.ok []) ∧
      (∀ e, (relaxLoop q steps filters props).1 = Except.error e →
        ∃ f e0, ((relaxLoop q steps filters props).2).getLast? = some f ∧
          q f = Except.error e0 ∧
          e = "error searching properties with relaxed filters: " ++ e0) := by
  intro steps
  induction steps with
  | nil =>
    intro filters props
    constructor
    · intro f hf; simp [relaxLoop] at hf
    · intro e he; simp [relaxLoop] at he
  | cons step rest ih =>
    intro filters props
    cases hq : q (alDel filters step) with
    | error e0 =>
      constructor
      · intro f hf; simp [relaxLoop, hq] at hf
      · intro e he
        simp only [relaxLoop, hq] at he ⊢
        exact ⟨alDel filters step, e0, rfl, hq, by exact (Except.error.injEq _ _).mp he |>.symm⟩
    | ok props' =>
      by_cases hlen : props'.length > 0
      · constructor
        · intro f hf; simp [relaxLoop, hq, hlen] at hf
        · intro e he; simp [relaxLoop, hq, hlen] at he
      · have hnil : props' = [] := List.length_eq_zero.mp (by omega)
        obtain ⟨ih1, ih2⟩ := ih (alDel filters step) props'
        constructor
        · intro f hf
          simp only [relaxLoop, hq, if_neg hlen] at hf
          rcases htr : (relaxLoop q rest (alDel filters step) props').2 with _ | ⟨t, ts⟩
          · rw [htr] at hf; simp at hf
          · rw [htr] at hf
            rw [List.dropLast_cons₂] at hf
            rcases List.mem_cons.mp hf with hf | hf
            · subst hf; rw [hq, hnil]
            · exact ih1 f (by rw [htr]; exact hf)
        · intro e he
          simp only [relaxLoop, hq, if_neg hlen] at he ⊢
          obtain ⟨f, e0, hlast, hqf, hmsg⟩ := ih2 e he
          rcases htr : (relaxLoop q rest (alDel filters step) props').2 with _ | ⟨t, ts⟩
          · rw [htr] at hlast; simp at hlast
          · rw [htr] at hlast
            exact ⟨f, e0, by rw [List.getLast?_cons_cons]; exact hlast, hqf, hmsg⟩

/-! ## Claim theorems -/

/-- C1: the relaxation sequence deletes the literal filter keys
"bedrooms", "types", "price", "furnished", but `buildFilters` stores the
price constraint under "min_price" and "max_price", never under "price".
So the third relaxation step is a no-op: on a selection set with all
four dimensions set and a listing that matches everything except the
price range, the search still ends empty, although after the bedrooms
and types drops the listing would match as soon as the two price keys
were really removed — the filter map at the "price" step still carries
both of them. -/
theorem c1_price_step_is_noop :
    searchProperties (dbQuery [propPricey]) prefsC1 = Except.ok [] ∧
    alGet (alDel (alDel (alDel (buildFilters prefsC1) "bedrooms") "types") "price")
      "min_price" = some (FilterValue.int 1000) ∧
    alGet (alDel (alDel (alDel (buildFilters prefsC1) "bedrooms") "types") "price")
      "max_price" = some (FilterValue.int 2000) ∧
    GetProperties [propPricey]
      (alDel (alDel (alDel (alDel (alDel (buildFilters prefsC1) "bedrooms") "types") "price")
        "min_price") "max_price") = [propPricey] :=
  ⟨rfl, rfl, rfl, rfl⟩

/-- C2 (counterexample): the claim says the location constraint holds
exactly on case-insensitive containment; but for the listing located at
"Bath City Centre", which contains "Bath", the query with location
filter "Bath" returns nothing — `GetProperties` compares with
`LOWER(location) = LOWER(?)`, an equality. -/
theorem c2_containment_counterexample :
    specLocationContains propBathCentre.location "Bath" = true ∧
    locationPass locOnlyFilters propBathCentre = false ∧
    GetProperties [propBathCentre] locOnlyFilters = [] :=
  ⟨rfl, rfl, rfl⟩

/-- C2 (amended): for every query filter carrying a location string L
and every listing, the location constraint applied by `GetProperties`
holds exactly when the listing's location equals L under
case-insensitive comparison (equality, not containment). -/
theorem c2_location_match_is_equality (fs : Filters) (L : String) (p : Property)
    (h : alGet fs "location" = some (FilterValue.str L)) :
    (locationPass fs p = true ↔ sqliteLower p.location = sqliteLower L) ∧
    (matchesFilters fs p = true → sqliteLower p.location = sqliteLower L) := by
  have h1 : locationPass fs p = (sqliteLower p.location == sqliteLower L) := by
    unfold locationPass
    rw [h]
  constructor
  · rw [h1]; exact beq_iff_eq
  · intro hm
    have hl : locationPass fs p = true := by
      unfold matchesFilters at hm
      simp only [Bool.and_eq_true] at hm
      exact hm.1.2
    rw [h1] at hl
    exact beq_iff_eq.mp hl

/-- C2 witness: the listing located at "BATH" passes the "Bath" location
constraint, by the amended equality characterization. -/
theorem c2_location_match_is_equality_witness :
    sqliteLower propBATH.location = sqliteLower "Bath" :=
  (c2_location_match_is_equality locOnlyFilters "Bath" propBATH rfl).1.mp rfl

/-- C3: the round-trip claim fails — `SaveUserPreferences` never
succeeds, for any store, preference record and save time, because it
binds the `Furnished` Go map as the sixth statement argument (the
`furnished BOOLEAN` column) and database/sql's parameter converter
rejects maps; the repository's own tests assert this save succeeds. -/
theorem c3_save_preferences_always_fails
    (store : PrefStore) (prefs : UserPreferences) (now : Int) :
    SaveUserPreferences store prefs now =
      Except.error "sql: converting argument $6 type: unsupported type map[string]bool, a map" :=
  rfl

/-- C4 (counterexample): the price-range string "0-1000" is non-empty,
yet `buildFilters` leaves the min_price key unset, because the parsed
minimum 0 fails the `min > 0` guard. -/
theorem c4_zero_min_counterexample :
    prefsC4.PriceRange ≠ "" ∧ alGet (buildFilters prefsC4) "min_price" = none :=
  ⟨by decide, rfl⟩

/-- C4 (amended): for a non-empty price-range string, `buildFilters`
populates min_price exactly when the parsed minimum is positive and
max_price exactly when the parsed maximum is positive, each with its
parsed value. -/
theorem c4_price_keys_only_when_positive (prefs : SearchPreferences)
    (h : prefs.PriceRange ≠ "") :
    alGet (buildFilters prefs) "min_price" =
      (if (parsePriceRange prefs.PriceRange).1 > 0
        then some (FilterValue.int (parsePriceRange prefs.PriceRange).1) else none) ∧
    alGet (buildFilters prefs) "max_price" =
      (if (parsePriceRange prefs.PriceRange).2 > 0
        then some (FilterValue.int (parsePriceRange prefs.PriceRange).2) else none) := by
  constructor
  · unfold buildFilters
    simp only [h, if_true, ne_eq, not_false_iff]
    split_ifs <;> simp [alGet_alSet]
  · unfold buildFilters
    simp only [h, if_true, ne_eq, not_false_iff]
    split_ifs <;> simp [alGet_alSet]

/-- C4 witness: on the range "1000-2000" both price keys are set with
the parsed bounds. -/
theorem c4_price_keys_witness :
    alGet (buildFilters prefsC1) "min_price" = some (FilterValue.int 1000) ∧
    alGet (buildFilters prefsC1) "max_price" = some (FilterValue.int 2000) := by
  have h := c4_price_keys_only_when_positive prefsC1 (by decide)
  exact ⟨h.1.trans (by decide), h.2.trans (by decide)⟩

/-- C5: from stage "initial", a property-type selection callback
followed by the "done" callback leaves the user in "awaiting_bedrooms";
the free text "abc" in "awaiting_price_range" leaves the stage unchanged
and re-sends the validation-failure prompt; the free text "500-1000"
advances the stage to "awaiting_furnished". -/
theorem c5_state_machine_scenario :
    (handleCallbackQuery (handleCallbackQuery initialUserState "property_type:Flat").1
      "property_type:done").1.Stage = "awaiting_bedrooms" ∧
    (handleRegularMessage awaitingPriceRangeState "abc").1.Stage = stageAwaitingPriceRange ∧
    (handleRegularMessage awaitingPriceRangeState "abc").2 =
      ["Invalid price range format. Please use the format: min - max (e.g., 1200 - 1800)"] ∧
    (handleRegularMessage awaitingPriceRangeState "500-1000").1.Stage = "awaiting_furnished" :=
  ⟨rfl, rfl, rfl, rfl⟩

/-- C6 (counterexample): on "2000000-abc" the max side fails to parse,
so under the claim's rule (swap only when both sides parse) the result
would be (2000000, 1000000); the code swaps whenever min > max and
returns (1000000, 2000000). -/
theorem c6_swap_counterexample :
    parsePriceRange "2000000-abc" = (1000000, 2000000) ∧
    specParsePriceRange "2000000-abc" = (2000000, 1000000) :=
  ⟨rfl, rfl⟩

/-- C6 (amended): `parsePriceRange` splits on "-" (anything but exactly
two parts gives the full default range); each side that fails to parse
takes its default (min 0, max 1,000,000); the two values are swapped
whenever min > max, also when a side took its default; and the four
quoted evaluations hold. -/
theorem c6_parse_price_range :
    (∀ s, parsePriceRange s = specParsePriceRangeAmended s) ∧
    parsePriceRange "500-1000" = (500, 1000) ∧
    parsePriceRange "1000-500" = (500, 1000) ∧
    parsePriceRange "abc" = (0, 1000000) ∧
    parsePriceRange "" = (0, 1000000) :=
  ⟨fun _ => rfl, rfl, rfl, rfl, rfl⟩

/-- C7: for a furnished-option map over the two labels the dialogue
offers, the derived filter has a furnished key exactly when the two
selections differ (exactly one selected), and selecting only "Furnished"
yields the value true. -/
theorem c7_furnished_single_selection (prefs : SearchPreferences) (fb ub : Bool)
    (h : prefs.FurnishedOptions = [("Furnished", fb), ("Unfurnished", ub)]) :
    (alGet (buildFilters prefs) "furnished" = none ↔ fb = ub) ∧
    (fb = true → ub = false →
      alGet (buildFilters prefs) "furnished" = some (FilterValue.bool true)) := by
  have hchar : alGet (buildFilters prefs) "furnished" =
      (if fb = ub then none else some (FilterValue.bool fb)) := by
    unfold buildFilters
    rw [h]
    cases fb <;> cases ub <;> simp [getSelectedOptions] <;> split_ifs <;> simp [alGet_alSet]
  constructor
  · rw [hchar]
    cases fb <;> cases ub <;> simp
  · intro h1 h2
    subst h1; subst h2
    rw [hchar]
    simp

/-- C7 witness: with only "Furnished" selected the filter carries
furnished = true. -/
theorem c7_furnished_witness :
    alGet (buildFilters prefsC1) "furnished" = some (FilterValue.bool true) :=
  (c7_furnished_single_selection prefsC1 true false rfl).2 rfl rfl

/-- C8: `searchProperties` surfaces storage errors without retrying:
in the sequence of queries it issues, every query before the last
returned an empty success (so relaxation is entered only on empty
results, and nothing is issued after a failure), and an error outcome is
exactly the last issued query's error, wrapped once. -/
theorem c8_errors_surface_without_retry (q : QueryFun) (prefs : SearchPreferences) :
    (∀ f ∈ ((searchPropertiesTraced q prefs).2).dropLast, q f = Except.ok []) ∧
    (∀ e, (searchPropertiesTraced q prefs).1 = Except.error e →
      ∃ f e0, ((searchPropertiesTraced q prefs).2).getLast? = some f ∧
        q f = Except.error e0 ∧
        (e = "error searching properties: " ++ e0 ∨
         e = "error searching properties with relaxed filters: " ++ e0)) := by
  cases hq : q (buildFilters prefs) with
  | error e0 =>
    constructor
    · intro f hf; simp [searchPropertiesTraced, hq] at hf
    · intro e he
      simp only [searchPropertiesTraced, hq] at he ⊢
      exact ⟨buildFilters prefs, e0, rfl, hq,
        Or.inl ((Except.error.injEq _ _).mp he |>.symm)⟩
  | ok props =>
    by_cases hlen : props.length = 0
    · have hnil : props = [] := List.length_eq_zero.mp hlen
      obtain ⟨h1, h2⟩ := relaxLoop_err q relaxationSteps (buildFilters prefs) props
      constructor
      · intro f hf
        simp only [searchPropertiesTraced, hq, if_pos hlen] at hf
        rcases htr : (relaxLoop q relaxationSteps (buildFilters prefs) props).2 with _ | ⟨t, ts⟩
        · rw [htr] at hf; simp at hf
        · rw [htr] at hf
          rw [List.dropLast_cons₂] at hf
          rcases List.mem_cons.mp hf with hf | hf
          · subst hf; rw [hq, hnil]
          · exact h1 f (by rw [htr]; exact hf)
      · intro e he
        simp only [searchPropertiesTraced, hq, if_pos hlen] at he ⊢
        obtain ⟨f, e0, hlast, hqf, hmsg⟩ := h2 e he
        rcases htr : (relaxLoop q relaxationSteps (buildFilters prefs) props).2 with _ | ⟨t, ts⟩
        · rw [htr] at hlast; simp at hlast
        · rw [htr] at hlast
          exact ⟨f, e0, by rw [List.getLast?_cons_cons]; exact hlast, hqf, Or.inr hmsg⟩
    · constructor
      · intro f hf; simp [searchPropertiesTraced, hq, hlen] at hf
      · intro e he; simp [searchPropertiesTraced, hq, hlen] at he

/-- C8 witness: against a connection that answers the initial query with
an empty success and fails on the first relaxed re-query, the initial
query is the only one before the last and did return an empty success,
and the surfaced error is the last query's error, wrapped. -/
theorem c8_errors_witness :
    qBoom (buildFilters prefsC1) = Except.ok [] ∧
    (∃ f e0, ((searchPropertiesTraced qBoom prefsC1).2).getLast? = some f ∧
      qBoom f = Except.error e0 ∧
      ("error searching properties with relaxed filters: boom" =
          "error searching properties: " ++ e0 ∨
       "error searching properties with relaxed filters: boom" =
          "error searching properties with relaxed filters: " ++ e0)) := by
  have h := c8_errors_surface_without_retry qBoom prefsC1
  refine ⟨h.1 (buildFilters prefsC1) ?_, h.2 _ rfl⟩
  have htr : ((searchPropertiesTraced qBoom prefsC1).2).dropLast = [buildFilters prefsC1] := rfl
  rw [htr]
  exact List.mem_singleton.mpr rfl

/-- C9: every query issued by `searchProperties` — the initial one and
every relaxed re-query — carries the location key with its original
value, the fixed service area "Bath"; no relaxation step removes or
changes it. -/
theorem c9_location_never_relaxed (q : QueryFun) (prefs : SearchPreferences) :
    ∀ f ∈ (searchPropertiesTraced q prefs).2,
      alGet f "location" = some (FilterValue.str "Bath") := by
  intro f hf
  have hloc := buildFilters_location prefs
  simp only [searchPropertiesTraced] at hf
  cases hq : q (buildFilters prefs) with
  | error e => rw [hq] at hf; simp at hf; subst hf; exact hloc
  | ok props =>
    rw [hq] at hf
    by_cases hlen : props.length = 0
    · simp [hlen] at hf
      rcases hf with hf | hf
      · subst hf; exact hloc
      · exact relaxLoop_location q _ relaxationSteps (buildFilters prefs) props
          (by intro s hs; fin_cases hs <;> simp) hloc f hf
    · simp [hlen] at hf; subst hf; exact hloc

/-- C9 witness: the first relaxed re-query of the traced search against
`qBoom` still carries location = "Bath". -/
theorem c9_location_witness :
    alGet (alDel (buildFilters prefsC1) "bedrooms") "location" =
      some (FilterValue.str "Bath") := by
  refine c9_location_never_relaxed qBoom prefsC1 (alDel (buildFilters prefsC1) "bedrooms") ?_
  have htr : (searchPropertiesTraced qBoom prefsC1).2 =
      [buildFilters prefsC1, alDel (buildFilters prefsC1) "bedrooms"] := rfl
  rw [htr]
  exact List.mem_cons.mpr (Or.inr (List.mem_singleton.mpr rfl))

/-- C10: saving the same (user, listing) reference twice is the same as
saving it once, the listed saved-reference count is unaffected by the
duplicate save, and when the pair was not yet stored exactly one
reference to it remains. -/
theorem c10_save_listing_idempotent (store : List (Int × Int)) (u l : Int)
    (h : countPair store u l = 0) :
    saveListingReference (saveListingReference store u l) u l = saveListingReference store u l ∧
    (listSavedReferences (saveListingReference (saveListingReference store u l) u l) u).length =
      (listSavedReferences (saveListingReference store u l) u).length ∧
    countPair (saveListingReference (saveListingReference store u l) u l) u l = 1 := by
  have hnotmem : (u, l) ∉ store := by
    intro hmem
    have hmf : (u, l) ∈ store.filter (fun p => p = (u, l)) :=
      List.mem_filter.mpr ⟨hmem, by simp⟩
    have := List.length_pos.mpr (List.ne_nil_of_mem hmf)
    unfold countPair at h
    omega
  have hsave1 : saveListingReference store u l = store ++ [(u, l)] := by
    simp [saveListingReference, hnotmem]
  have hidem : saveListingReference (saveListingReference store u l) u l =
      saveListingReference store u l := by
    rw [hsave1]
    simp [saveListingReference]
  refine ⟨hidem, by rw [hidem], ?_⟩
  rw [hidem, hsave1]
  unfold countPair at h ⊢
  rw [List.filter_append]
  simp [h]

/-- C10 witness: from an empty reference table, saving (12345, 1) twice
leaves the single-save state and exactly one stored reference. -/
theorem c10_save_listing_witness :
    saveListingReference (saveListingReference [] 12345 1) 12345 1 =
      saveListingReference [] 12345 1 ∧
    (listSavedReferences (saveListingReference (saveListingReference [] 12345 1) 12345 1)
      12345).length =
      (listSavedReferences (saveListingReference [] 12345 1) 12345).length ∧
    countPair (saveListingReference (saveListingReference [] 12345 1) 12345 1) 12345 1 = 1 :=
  c10_save_listing_idempotent [] 12345 1 rfl

end RentSeeker
